import Mathlib

/-!
Shallow embedding of `src/number_info_bot.py` (repository Evilbyt/number-info-bot).

The file concatenates three Telegram-bot variants.  The claims target:
  * the basic bot (lines 1-158): `format_number_info`, the `/info` parse cascade,
    `extract_first_number_from_text`;
  * the mock "advanced" bot (lines 161-489): `get_number_risk_assessment` (one
    argument), the `/info` loop with its limit of 3;
  * the real-API "advanced" bot (lines 493-1061): the provider clients
    `AbstractAPI` / `NumVerifyAPI`, `lookup_name_info_real`,
    `get_number_risk_assessment` (two arguments), `format_enhanced_number_info`,
    `extract_all_numbers_from_text`, and the `/info` loop with its limit of 2.

Conventions of the embedding:
  * A parsed `phonenumbers.PhoneNumber`, together with everything the
    `phonenumbers` library derives from it, is the record `NumObj`; library
    calls that can return a falsy value (None or the empty string) are carried
    as a `String` in which the empty string stands for the falsy case, matching
    the pervasive Python idiom `x or "Unknown"` of the source.
  * Python dictionaries that either carry an "error" key or are a fixed parsed
    shape become two-constructor inductives; Python None inside a value becomes
    `Option`.
  * Network effects are data: an `HttpOutcome` value records whether the
    aiohttp call raised, and otherwise the status code and the outcome of
    decoding the body.  The provider clients are pure functions of that value.
-/

set_option maxHeartbeats 1000000

namespace NumberInfoBot

/-- The members of `phonenumbers.PhoneNumberType` used by the source. -/
inductive PhoneNumberType where
  | FixedLine
  | Mobile
  | FixedLineOrMobile
  | TollFree
  | PremiumRate
  | SharedCost
  | VoIP
  | PersonalNumber
  | Pager
  | UAN
  | Voicemail
  | Unknown
  deriving DecidableEq

/-- A parsed phone number together with what each `phonenumbers` library call
returns for it.  Fields whose library call can yield a falsy value use the
empty string (or the empty list) for that case. -/
structure NumObj where
  intl : String            -- format_number(num, INTERNATIONAL)
  e164 : String            -- format_number(num, E164)
  nat : String             -- format_number(num, NATIONAL)
  region : String          -- region_code_for_number(num); "" when falsy
  valid : Bool             -- is_valid_number(num)
  possible : Bool          -- is_possible_number(num)
  ptype : PhoneNumberType  -- number_type(num)
  carrierName : String     -- carrier.name_for_number(num, "en"); "" when falsy
  location : String        -- geocoder.description_for_number(num, "en"); "" when falsy
  tzs : List String        -- timezone.time_zones_for_number(num); [] when falsy
  deriving DecidableEq

/-- PHONE_TYPE_MAP of the basic bot (lines 33-46).  The lookup
PHONE_TYPE_MAP.get(ptype, str(ptype)) carries a default, but the dict covers
every member of the enum, so the function is total as written. -/
def phone_type_map_basic : PhoneNumberType → String
  | .FixedLine => "Fixed line"
  | .Mobile => "Mobile"
  | .FixedLineOrMobile => "Fixed or Mobile"
  | .TollFree => "Toll free"
  | .PremiumRate => "Premium rate"
  | .SharedCost => "Shared cost"
  | .VoIP => "VoIP"
  | .PersonalNumber => "Personal number"
  | .Pager => "Pager"
  | .UAN => "UAN"
  | .Voicemail => "Voicemail"
  | .Unknown => "Unknown"

/-- PHONE_TYPE_MAP of the real-API bot (lines 539-552); same remark on the
default branch of the .get as for the basic map. -/
def phone_type_map_enh : PhoneNumberType → String
  | .FixedLine => "📞 Fixed line"
  | .Mobile => "📱 Mobile"
  | .FixedLineOrMobile => "📞📱 Fixed or Mobile"
  | .TollFree => "🆓 Toll free"
  | .PremiumRate => "💎 Premium rate"
  | .SharedCost => "💰 Shared cost"
  | .VoIP => "🌐 VoIP"
  | .PersonalNumber => "👤 Personal number"
  | .Pager => "📟 Pager"
  | .UAN => "🏢 UAN (Universal Access Number)"
  | .Voicemail => "💬 Voicemail"
  | .Unknown => "❓ Unknown"

/-- The `risky_types` list shared by both risk assessors (lines 247-251 and
784-788). -/
def risky_types : List PhoneNumberType :=
  [PhoneNumberType.PremiumRate, PhoneNumberType.SharedCost, PhoneNumberType.Unknown]

/-- The `results` dictionary produced by `lookup_name_info_real` whenever it is
non-empty: `results.update` always installs all four keys, each of the three
data values possibly None (lines 750-768). -/
structure ApiFields where
  carrier : Option String
  location : Option String
  line_type : Option String
  source : String
  deriving DecidableEq

/-- api_data.get("line_type") on the dict of `lookup_name_info_real`: None when
the dict is empty, else the stored (possibly None) value. -/
def apiLineType : Option ApiFields → Option String
  | none => none
  | some f => f.line_type

/-- get_number_risk_assessment of the real-API bot (lines 778-797).  Returns
the literal reply string. -/
def get_number_risk_assessment (num : NumObj) (api_data : Option ApiFields) : String :=
  if num.valid = false then "⚠️ High Risk (Invalid Number)"
  else if num.ptype ∈ risky_types then "⚠️ Medium Risk (Suspicious Number Type)"
  else if apiLineType api_data ∈ [some ("premium_rate"), some ("shared_cost")] then
    "⚠️ High Risk (Premium/Shared Cost Number)"
  else "✅ Low Risk (Appears Legitimate)"

/-- get_number_risk_assessment of the mock advanced bot (lines 241-256): same
first two rules, no provider-data rule. -/
def get_number_risk_assessment_v2 (num : NumObj) : String :=
  if num.valid = false then "⚠️ High Risk (Invalid Number)"
  else if num.ptype ∈ risky_types then "⚠️ Medium Risk (Suspicious Number Type)"
  else "✅ Low Risk (Appears Legitimate)"

/-- The three risk levels named by the specification. -/
inductive RiskLevel where
  | low
  | medium
  | high
  deriving DecidableEq

/-- Reading of the four literal reply strings of the risk assessors as
specification-level risk levels. -/
def riskOf (s : String) : RiskLevel :=
  if s = "⚠️ High Risk (Invalid Number)" ∨ s = "⚠️ High Risk (Premium/Shared Cost Number)" then
    RiskLevel.high
  else if s = "⚠️ Medium Risk (Suspicious Number Type)" then RiskLevel.medium
  else RiskLevel.low

/-! Provider clients (lines 554-723).  A lookup call's interaction with the
network is data: either the aiohttp request raised (transport error,
authentication handshake failure, timeout, DNS failure, upstream rate-limit
exception, ...) or a response with a status code arrived whose body either
decoded as JSON or raised during decoding.  All of these happen inside the
try block of `lookup_number`, whose `except Exception` clause catches every
raise. -/

/-- Outcome of decoding the body of a response: `response.json()` either
raised or produced data. -/
inductive JsonOutcome (α : Type) where
  | decodeError (e : String)
  | ok (d : α)
  deriving DecidableEq

/-- Outcome of the outbound request issued inside the try block. -/
inductive HttpOutcome (α : Type) where
  | raise (e : String)
  | response (status : Nat) (body : JsonOutcome α)
  deriving DecidableEq

/-- Whether the call fully succeeded: a 200 response whose body decoded. -/
def httpSuccess {α : Type} : HttpOutcome α → Bool
  | .response s (.ok _) => s == 200
  | _ => false

/-- The "format" object of an AbstractAPI response body. -/
structure AbstractRawFormat where
  international : Option String
  localNum : Option String     -- the "local" key; local is a reserved word in Lean
  deriving DecidableEq

/-- The "country" object of an AbstractAPI response body.  `dialCode` models
the country dialling-code key of the upstream JSON. -/
structure AbstractRawCountry where
  name : Option String
  code : Option String
  dialCode : Option String
  deriving DecidableEq

/-- An AbstractAPI response body as a JSON dict; every key may be absent. -/
structure AbstractRaw where
  valid : Option Bool
  fmt : Option AbstractRawFormat      -- the "format" key
  country : Option AbstractRawCountry
  location : Option String
  carrier : Option String
  lineKind : Option String            -- the "type" key
  deriving DecidableEq

/-- The dict built by AbstractAPI._parse_response (lines 602-619); it never
contains an "error" key. -/
structure AbstractParsed where
  valid : Bool
  format_international : Option String
  format_local : Option String
  country_name : Option String
  country_code : Option String
  country_dial_code : Option String
  location : Option String
  carrier : Option String
  line_type : Option String
  deriving DecidableEq

/-- AbstractAPI._parse_response (lines 602-619): data.get with nested
data.get("format", ...).get(...) chains. -/
def abstract_parse_response (data : AbstractRaw) : AbstractParsed :=
  { valid := data.valid.getD false
    format_international := match data.fmt with | none => none | some f => f.international
    format_local := match data.fmt with | none => none | some f => f.localNum
    country_name := match data.country with | none => none | some c => c.name
    country_code := match data.country with | none => none | some c => c.code
    country_dial_code := match data.country with | none => none | some c => c.dialCode
    location := data.location
    carrier := data.carrier
    line_type := data.lineKind }

/-- What AbstractAPI.lookup_number returns: a dict that either carries an
"error" key or is the parsed shape (which never carries one). -/
inductive AbstractDict where
  | err (msg : String)
  | parsed (r : AbstractParsed)
  deriving DecidableEq

/-- Whether the dict carries the "error" key. -/
def AbstractDict.isErr : AbstractDict → Bool
  | .err _ => true
  | .parsed _ => false

/-- AbstractAPI.lookup_number (lines 579-600).  `api_key` is "" to model a
falsy key.  Every raise inside the try block is caught and converted; the
non-200 branch and the missing-key branch return error dicts directly, so the
function is total: no exception escapes. -/
def AbstractAPI_lookup_number (api_key : String) (net : HttpOutcome AbstractRaw) :
    AbstractDict :=
  if api_key = "" then AbstractDict.err ("AbstractAPI key not configured")
  else
    match net with
    | .raise e => AbstractDict.err e
    | .response status body =>
      if status = 200 then
        match body with
        | .decodeError e => AbstractDict.err e
        | .ok d => AbstractDict.parsed (abstract_parse_response d)
      else AbstractDict.err ("API error: " ++ toString status)

/-- A NumVerify response body as a JSON dict; every key may be absent.
`country_dial_code` models the country dialling-code key of the upstream
JSON. -/
structure NumVerifyRaw where
  valid : Option Bool
  number : Option String
  local_format : Option String
  international_format : Option String
  country_name : Option String
  country_code : Option String
  country_dial_code : Option String
  location : Option String
  carrier : Option String
  line_type : Option String
  deriving DecidableEq

/-- The dict built by NumVerifyAPI._parse_response (lines 654-670); it never
contains an "error" key. -/
structure NumVerifyParsed where
  valid : Bool
  number : Option String
  local_format : Option String
  international_format : Option String
  country_name : Option String
  country_code : Option String
  country_dial_code : Option String
  location : Option String
  carrier : Option String
  line_type : Option String
  deriving DecidableEq

/-- NumVerifyAPI._parse_response (lines 654-670). -/
def numverify_parse_response (data : NumVerifyRaw) : NumVerifyParsed :=
  { valid := data.valid.getD false
    number := data.number
    local_format := data.local_format
    international_format := data.international_format
    country_name := data.country_name
    country_code := data.country_code
    country_dial_code := data.country_dial_code
    location := data.location
    carrier := data.carrier
    line_type := data.line_type }

/-- What NumVerifyAPI.lookup_number returns. -/
inductive NumVerifyDict where
  | err (msg : String)
  | parsed (r : NumVerifyParsed)
  deriving DecidableEq

/-- Whether the dict carries the "error" key. -/
def NumVerifyDict.isErr : NumVerifyDict → Bool
  | .err _ => true
  | .parsed _ => false

/-- NumVerifyAPI.lookup_number (lines 629-652); same structure as the
AbstractAPI client. -/
def NumVerifyAPI_lookup_number (api_key : String) (net : HttpOutcome NumVerifyRaw) :
    NumVerifyDict :=
  if api_key = "" then NumVerifyDict.err ("NumVerify key not configured")
  else
    match net with
    | .raise e => NumVerifyDict.err e
    | .response status body =>
      if status = 200 then
        match body with
        | .decodeError e => NumVerifyDict.err e
        | .ok d => NumVerifyDict.parsed (numverify_parse_response d)
      else NumVerifyDict.err ("API error: " ++ toString status)

/-- The two providers `lookup_name_info_real` can call, in priority order. -/
inductive Provider where
  | abstractAPI
  | numVerify
  deriving DecidableEq

/-- lookup_name_info_real (lines 744-776).  Each input models one module-level
client together with the outcome of the (single) lookup call it would make:
`none` means the client is None (no API key configured); `some d` means the
client exists and its lookup_number call returned the dict `d`.  Returns the
`results` dict (`none` models the empty dict) together with the list of
providers whose lookup was invoked, in call order.  Mirrors the source: the
AbstractAPI result is merged when it has no "error" key; NumVerify is called
only when `results` is still empty (`if not results and numverify_api`); the
OpenCage branch is a pass statement and contributes nothing. -/
def lookup_name_info_real (a : Option AbstractDict) (nv : Option NumVerifyDict) :
    Option ApiFields × List Provider :=
  let step1 : Option ApiFields × List Provider :=
    match a with
    | none => (none, [])
    | some (.err _) => (none, [Provider.abstractAPI])
    | some (.parsed r) =>
      (some { carrier := r.carrier, location := r.location, line_type := r.line_type,
              source := "AbstractAPI" }, [Provider.abstractAPI])
  match step1 with
  | (some res, q) => (some res, q)
  | (none, q) =>
    match nv with
    | none => (none, q)
    | some (.err _) => (none, q ++ [Provider.numVerify])
    | some (.parsed r) =>
      (some { carrier := r.carrier, location := r.location, line_type := r.line_type,
              source := "NumVerify" }, q ++ [Provider.numVerify])

/-- Whether a (possibly None) provider value is a non-empty string. -/
def nonEmptyVal : Option String → Bool
  | some s => !(s == (""))
  | none => false

/-- Whether an error-free AbstractAPI result supplies at least one non-empty
value among the three data fields the orchestrator merges. -/
def AbstractParsed.hasDataField (r : AbstractParsed) : Bool :=
  nonEmptyVal r.carrier || nonEmptyVal r.location || nonEmptyVal r.line_type

/-- The client is absent or its lookup returned an error dict. -/
def absentOrErrA : Option AbstractDict → Bool
  | none => true
  | some (.err _) => true
  | some (.parsed _) => false

/-- The client is absent or its lookup returned an error dict. -/
def absentOrErrN : Option NumVerifyDict → Bool
  | none => true
  | some (.err _) => true
  | some (.parsed _) => false

/-! Report formatting (lines 48-77 of the basic bot and 799-860 of the
real-API bot). -/

/-- carrier.name_for_number(num_obj, "en") or "Unknown". -/
def carrier_name (num : NumObj) : String :=
  if num.carrierName = "" then "Unknown" else num.carrierName

/-- geocoder.description_for_number(num_obj, "en") or "Unknown". -/
def location_str (num : NumObj) : String :=
  if num.location = "" then "Unknown" else num.location

/-- region_code_for_number(num_obj) or "Unknown". -/
def region_str (num : NumObj) : String :=
  if num.region = "" then "Unknown" else num.region

/-- The tzs_str local: ", ".join(tzs) if tzs else "Unknown". -/
def tzs_str (num : NumObj) : String :=
  if num.tzs = [] then "Unknown" else String.intercalate (", ") num.tzs

/-- Interpolating a Python value that is None or a string into an f-string:
None renders as the text None. -/
def pyStr : Option String → String
  | some s => s
  | none => "None"

/-- real_carrier = api_data.get("carrier", carrier_name) (line 820): the
default applies only when the dict is empty; a stored None is kept. -/
def real_carrier (num : NumObj) (api_data : Option ApiFields) : Option String :=
  match api_data with
  | none => some (carrier_name num)
  | some f => f.carrier

/-- real_location = api_data.get("location", location) (line 821). -/
def real_location (num : NumObj) (api_data : Option ApiFields) : Option String :=
  match api_data with
  | none => some (location_str num)
  | some f => f.location

/-- real_line_type = api_data.get("line_type", "") (line 822). -/
def real_line_type (api_data : Option ApiFields) : Option String :=
  match api_data with
  | none => some ("")
  | some f => f.line_type

/-- The rendered line-type value: real_line_type or "Not specified"
(line 844); both None and the empty string are falsy. -/
def shown_line_type (api_data : Option ApiFields) : String :=
  match real_line_type api_data with
  | none => "Not specified"
  | some s => if s = "" then "Not specified" else s

/-- data_source = api_data.get("source", "Basic Library Data") (line 823). -/
def data_source (api_data : Option ApiFields) : String :=
  match api_data with
  | none => "Basic Library Data"
  | some f => f.source

/-- The emoji_map dict of get_carrier_emoji in the real-API bot
(lines 732-737), in insertion order. -/
def emoji_map : List (String × String) :=
  [("verizon", "🔴"), ("att", "🔵"), ("t-mobile", "🟡"), ("sprint", "🟠"),
   ("vodafone", "🔴"), ("orange", "🟠"), ("telefonica", "🔵"), ("deutsche telekom", "🟡"),
   ("china mobile", "🇨🇳"), ("airtel", "🟡"), ("jio", "🟣"), ("vodacom", "🔴"),
   ("bt", "🔵"), ("virgin", "🟠"), ("o2", "🟢"), ("ee", "🟣")]

/-- Whether sub occurs as a contiguous run inside l. -/
def hasInfix (sub : List Char) : List Char → Bool
  | [] => sub.isEmpty
  | c :: t => sub.isPrefixOf (c :: t) || hasInfix sub t

/-- Python substring membership: key in carrier_lower. -/
def containsSubstr (s sub : String) : Bool :=
  hasInfix sub.toList s.toList

/-- get_carrier_emoji of the real-API bot (lines 726-742). -/
def get_carrier_emoji (cn : String) : String :=
  if cn = "" ∨ cn.toLower = "unknown" then "📡"
  else
    match emoji_map.find? (fun p => containsSubstr cn.toLower p.fst) with
    | some p => p.snd
    | none => "📡"

/-- The ambient provider environment of a format call: the module-level
clients together with the network outcome of the lookup each would perform
for a given E.164 string (the argument `lookup_name_info_real` is called
with). -/
abbrev ProvEnv := String → Option AbstractDict × Option NumVerifyDict

/-- The parts list of format_enhanced_number_info (lines 799-860).  The
"Enhanced with" line joins the comprehension over locals(); the names it looks
up (the lowercased API name followed by _api) are never function locals, so
the comprehension is always empty and the line always renders None. -/
def format_enhanced_parts (num : NumObj) (prov : ProvEnv) : List String :=
  let api_data := (lookup_name_info_real (prov num.e164).fst (prov num.e164).snd).fst
  ["🔍 *Advanced Phone Number Analysis* 🔍",
   "",
   "📊 *Basic Information:*",
   "• International: `" ++ num.intl ++ "`",
   "• E.164: `" ++ num.e164 ++ "`",
   "• National: `" ++ num.nat ++ "`",
   "",
   "🌍 *Geographic Details:*",
   "• Country/Region: `" ++ region_str num ++ "`",
   "• Location: `" ++ pyStr (real_location num api_data) ++ "`",
   "• Timezones: `" ++ tzs_str num ++ "`",
   "",
   "📡 *Carrier & Type:*",
   "• Carrier: " ++ get_carrier_emoji (carrier_name num) ++ " `" ++
     pyStr (real_carrier num api_data) ++ "`",
   "• Number Type: " ++ phone_type_map_enh num.ptype,
   "• Line Type: `" ++ shown_line_type api_data ++ "`",
   "",
   "⚡ *Validation & Security:*",
   "• Valid Number: " ++ (if num.valid then "✅ Yes" else "❌ No"),
   "• Possible Number: " ++ (if num.possible then "✅ Yes" else "❌ No"),
   "• Risk Assessment: " ++ get_number_risk_assessment num api_data,
   "",
   "🔧 *Data Sources:*",
   "• Primary Source: `" ++ data_source api_data ++ "`",
   "• Enhanced with: `None`",
   "",
   "💡 *Notes:*",
   "_Real-time data from free APIs. Accuracy may vary._",
   "_Free tiers have limited requests per month._"]

/-- format_enhanced_number_info (lines 799-860): the joined reply string. -/
def format_enhanced_number_info (num : NumObj) (prov : ProvEnv) : String :=
  String.intercalate ("\n") (format_enhanced_parts num prov)

/-- The parts list of format_number_info of the basic bot (lines 48-77);
str(bool) renders True or False. -/
def format_number_info_parts (num : NumObj) : List String :=
  ["*International:* `" ++ num.intl ++ "`",
   "*E.164:* `" ++ num.e164 ++ "`",
   "*National:* `" ++ num.nat ++ "`",
   "*Country / Region code:* `" ++ region_str num ++ "`",
   "*Valid number:* `" ++ (if num.valid then "True" else "False") ++ "`",
   "*Possible number:* `" ++ (if num.possible then "True" else "False") ++ "`",
   "*Number type:* `" ++ phone_type_map_basic num.ptype ++ "`",
   "*Carrier (best-effort):* `" ++ carrier_name num ++ "`",
   "*Geographic hint:* `" ++ location_str num ++ "`",
   "*Timezones (possible):* `" ++ tzs_str num ++ "`",
   "",
   "_Note: this provides formatting/location hints and carrier data when available. It does not provide owner names or any private registration data._"]

/-- format_number_info (lines 48-77): the joined reply string. -/
def format_number_info (num : NumObj) : String :=
  String.intercalate ("\n") (format_number_info_parts num)

/-! The /info command of the real-API bot (lines 913-948), from extraction
onward (the empty-text usage reply precedes extraction and is outside this
model). -/

/-- One reply_text call of the /info handler, tagged by its call site. -/
inductive InfoReply where
  | noNumbers (msg : String)
  | profile (msg : String)
  | omitNotice (msg : String)
  deriving DecidableEq

/-- The omission notice of the real-API /info loop (line 944). -/
def omit_notice_msg : String := "ℹ️ Additional numbers omitted to conserve API limits."

/-- The no-numbers reply of the real-API /info handler (lines 935-938). -/
def no_numbers_msg : String :=
  "❌ No valid phone numbers found in the provided text.\nMake sure to include country code (e.g., +1, +44) and proper formatting."

/-- The enumerate loop of /info (lines 942-948): for i, num in
enumerate(numbers): if i >= quota: send the notice and break; else send the
formatted profile.  The source hard-codes quota = 2 at this call site. -/
def process_loop (quota : Nat) (fmt : NumObj → String) : Nat → List NumObj → List InfoReply
  | _, [] => []
  | i, n :: rest =>
    if quota ≤ i then [InfoReply.omitNotice omit_notice_msg]
    else InfoReply.profile (fmt n) :: process_loop quota fmt (i + 1) rest

/-- The replies the real-API /info handler sends for a given extracted
candidate list (lines 932-948). -/
def info_cmd_messages (numbers : List NumObj) (prov : ProvEnv) : List InfoReply :=
  if numbers.isEmpty then [InfoReply.noNumbers no_numbers_msg]
  else process_loop 2 (fun n => format_enhanced_number_info n prov) 0 numbers

/-! The parse cascade of the basic bot /info handler (lines 106-120). -/

/-- The three parse stages, in source order. -/
inductive ParseStage where
  | strictParse
  | regionParse
  | textScan
  deriving DecidableEq

/-- The cascade of lines 106-120: phonenumbers.parse(text, None) guarded by
NumberParseException, then phonenumbers.parse(text, DEFAULT_REGION) likewise,
then extract_first_number_from_text over the whole string.  Each input is the
outcome that stage would produce (None models a parse failure or an empty
scan).  Returns the chosen number and the stages actually attempted, in
order. -/
def info_cmd_parse_cascade (strict region scan : Option NumObj) :
    Option NumObj × List ParseStage :=
  match strict with
  | some n => (some n, [ParseStage.strictParse])
  | none =>
    match region with
    | some n => (some n, [ParseStage.strictParse, ParseStage.regionParse])
    | none =>
      match scan with
      | some n =>
        (some n, [ParseStage.strictParse, ParseStage.regionParse, ParseStage.textScan])
      | none =>
        (none, [ParseStage.strictParse, ParseStage.regionParse, ParseStage.textScan])

/-! extract_all_numbers_from_text (lines 862-870). -/

/-- One step of iterating phonenumbers.PhoneNumberMatcher: the iterator either
yields a match or raises. -/
inductive MatchEvent where
  | found (n : NumObj)
  | exc (e : String)
  deriving DecidableEq

/-- extract_all_numbers_from_text (lines 862-870): the for loop appends each
yielded number; the except clause catches any raise, logs, and falls through
to return the list accumulated so far. -/
def extract_all_numbers_from_text : List MatchEvent → List NumObj
  | [] => []
  | MatchEvent.found n :: rest => n :: extract_all_numbers_from_text rest
  | MatchEvent.exc _ :: _ => []

/-- Whether the event is a yielded match. -/
def MatchEvent.isFound : MatchEvent → Bool
  | .found _ => true
  | .exc _ => false

/-- The yielded number, if any. -/
def MatchEvent.foundNumber : MatchEvent → Option NumObj
  | .found n => some n
  | .exc _ => none

/-! Concrete sample values used by witnesses and counterexamples. -/

/-- A valid US mobile number (the example number of the repository). -/
def sampleNum : NumObj :=
  { intl := "+1 415-555-2671", e164 := "+14155552671", nat := "(415) 555-2671",
    region := "US", valid := true, possible := true, ptype := PhoneNumberType.Mobile,
    carrierName := "Verizon Wireless", location := "San Francisco, CA",
    tzs := ["America/Los_Angeles"] }

/-- A valid premium-rate number. -/
def premiumNum : NumObj :=
  { intl := "+44 909 879 0879", e164 := "+449098790879", nat := "0909 879 0879",
    region := "GB", valid := true, possible := true, ptype := PhoneNumberType.PremiumRate,
    carrierName := "", location := "United Kingdom", tzs := ["Europe/London"] }

/-- An invalid number. -/
def invalidNum : NumObj :=
  { intl := "+1 23", e164 := "+123", nat := "23",
    region := "", valid := false, possible := false, ptype := PhoneNumberType.Unknown,
    carrierName := "", location := "", tzs := [] }

/-- The provider environment with no configured client. -/
def noProv : ProvEnv := fun _ => (none, none)

/-- An error-free AbstractAPI result none of whose data fields is non-empty. -/
def emptyAbstractParsed : AbstractParsed :=
  { valid := false, format_international := none, format_local := none,
    country_name := none, country_code := none, country_dial_code := none,
    location := none, carrier := none, line_type := none }

/-- An error-free NumVerify result carrying data. -/
def nvWithCarrier : NumVerifyParsed :=
  { valid := true, number := none, local_format := none, international_format := none,
    country_name := none, country_code := none, country_dial_code := none,
    location := none, carrier := some ("Vodafone"), line_type := some ("mobile") }

/-- An api_data dict whose line_type is premium_rate. -/
def premiumApi : Option ApiFields :=
  some { carrier := none, location := none, line_type := some ("premium_rate"),
         source := "AbstractAPI" }

/-- A non-empty api_data dict storing None for carrier and the empty string
for location. -/
def apiWithNoneCarrier : ApiFields :=
  { carrier := none, location := some (""), line_type := none, source := "NumVerify" }

/-! Theorems. -/

/-- C3: for every canonical number whose validity flag is false, both risk
assessors return the invalid-number High verdict, irrespective of the number
type (carried inside `num`) and of any provider data, and in particular before
any other rule can fire. -/
theorem c3_invalid_always_high (num : NumObj) (api_data : Option ApiFields)
    (h : num.valid = false) :
    get_number_risk_assessment num api_data = "⚠️ High Risk (Invalid Number)" ∧
    get_number_risk_assessment_v2 num = "⚠️ High Risk (Invalid Number)" ∧
    riskOf (get_number_risk_assessment num api_data) = RiskLevel.high := by
  have h1 : get_number_risk_assessment num api_data = "⚠️ High Risk (Invalid Number)" := by
    unfold get_number_risk_assessment
    rw [if_pos h]
  have h2 : get_number_risk_assessment_v2 num = "⚠️ High Risk (Invalid Number)" := by
    unfold get_number_risk_assessment_v2
    rw [if_pos h]
  refine ⟨h1, h2, ?_⟩
  rw [h1]
  decide

/-- C3 witness: the invalid sample number is classified High. -/
theorem c3_invalid_always_high_witness :
    get_number_risk_assessment invalidNum none = "⚠️ High Risk (Invalid Number)" :=
  (c3_invalid_always_high invalidNum none rfl).1

/-- C2 counterexample: a valid premium-rate number is classified Medium by the
code, not High as the claim states. -/
theorem c2_counterexample :
    premiumNum.valid = true ∧
    premiumNum.ptype = PhoneNumberType.PremiumRate ∧
    get_number_risk_assessment premiumNum none = "⚠️ Medium Risk (Suspicious Number Type)" ∧
    riskOf (get_number_risk_assessment premiumNum none) ≠ RiskLevel.high := by
  refine ⟨rfl, rfl, by decide, by decide⟩

/-- C2 amended: for a valid number whose type is PremiumRate, SharedCost or
Unknown the assessor returns Medium; and for a valid number it returns High if
and only if the number type is not one of those risky types and the provider
line_type is premium_rate or shared_cost - in particular, with any other
provider line_type a valid number of non-risky type is not classified High
(the code returns Low there). -/
theorem c2_premium_risk_amended (num : NumObj) (api_data : Option ApiFields) :
    (num.valid = true → num.ptype ∈ risky_types →
      riskOf (get_number_risk_assessment num api_data) = RiskLevel.medium) ∧
    (num.valid = true → num.ptype ∉ risky_types →
      apiLineType api_data ∈ [some ("premium_rate"), some ("shared_cost")] →
      riskOf (get_number_risk_assessment num api_data) = RiskLevel.high) ∧
    (num.valid = true →
      (riskOf (get_number_risk_assessment num api_data) = RiskLevel.high ↔
        (num.ptype ∉ risky_types ∧
         apiLineType api_data ∈ [some ("premium_rate"), some ("shared_cost")]))) := by
  refine ⟨?_, ?_, ?_⟩
  · intro hv ht
    have hnv : ¬(num.valid = false) := by simp [hv]
    unfold get_number_risk_assessment
    rw [if_neg hnv, if_pos ht]
    decide
  · intro hv ht hl
    have hnv : ¬(num.valid = false) := by simp [hv]
    unfold get_number_risk_assessment
    rw [if_neg hnv, if_neg ht, if_pos hl]
    decide
  · intro hv
    have hnv : ¬(num.valid = false) := by simp [hv]
    by_cases ht : num.ptype ∈ risky_types
    · unfold get_number_risk_assessment
      rw [if_neg hnv, if_pos ht]
      exact ⟨fun hcontra => absurd hcontra (by decide), fun hc => absurd ht hc.1⟩
    · by_cases hl : apiLineType api_data ∈ [some ("premium_rate"), some ("shared_cost")]
      · unfold get_number_risk_assessment
        rw [if_neg hnv, if_neg ht, if_pos hl]
        exact ⟨fun _ => ⟨ht, hl⟩, fun _ => by decide⟩
      · unfold get_number_risk_assessment
        rw [if_neg hnv, if_neg ht, if_neg hl]
        exact ⟨fun hcontra => absurd hcontra (by decide), fun hc => absurd hc.2 hl⟩

/-- C2 witness: a valid premium-rate number is Medium, a valid mobile number
with a provider-confirmed premium_rate line type is High, and a valid mobile
number with no provider data is not High. -/
theorem c2_premium_risk_witness :
    riskOf (get_number_risk_assessment premiumNum none) = RiskLevel.medium ∧
    riskOf (get_number_risk_assessment sampleNum premiumApi) = RiskLevel.high ∧
    ¬ riskOf (get_number_risk_assessment sampleNum none) = RiskLevel.high :=
  ⟨(c2_premium_risk_amended premiumNum none).1 rfl (by decide),
   (c2_premium_risk_amended sampleNum premiumApi).2.1 rfl (by decide) (by decide),
   fun hcontra =>
     absurd (((c2_premium_risk_amended sampleNum none).2.2 rfl).mp hcontra).2 (by decide)⟩

/-- C1 counterexample: AbstractAPI returns an error-free result none of whose
data fields is non-empty while NumVerify is configured and has data; the claim
requires the later provider to be consulted, but the code stops at the first
error-free result (the results dict is non-empty because of its source key)
and never queries NumVerify. -/
theorem c1_counterexample :
    AbstractParsed.hasDataField emptyAbstractParsed = false ∧
    (lookup_name_info_real (some (AbstractDict.parsed emptyAbstractParsed))
        (some (NumVerifyDict.parsed nvWithCarrier))).snd = [Provider.abstractAPI] ∧
    Provider.numVerify ∉
      (lookup_name_info_real (some (AbstractDict.parsed emptyAbstractParsed))
        (some (NumVerifyDict.parsed nvWithCarrier))).snd ∧
    (lookup_name_info_real (some (AbstractDict.parsed emptyAbstractParsed))
        (some (NumVerifyDict.parsed nvWithCarrier))).fst =
      some { carrier := none, location := none, line_type := none,
             source := "AbstractAPI" } := by
  refine ⟨rfl, rfl, by decide, rfl⟩

/-- C1 amended: providers are queried in priority order (AbstractAPI before
NumVerify, never out of order), querying stops at the first error-free
provider result regardless of whether it supplies any non-empty field, and the
later provider is consulted if and only if it is configured and the earlier
one is unconfigured or returned an error. -/
theorem c1_sequential_fallback_amended (a : Option AbstractDict)
    (nv : Option NumVerifyDict) :
    (Provider.abstractAPI ∈ (lookup_name_info_real a nv).snd ↔ a ≠ none) ∧
    (Provider.numVerify ∈ (lookup_name_info_real a nv).snd ↔
      (nv ≠ none ∧ (a = none ∨ ∃ m, a = some (AbstractDict.err m)))) ∧
    ((lookup_name_info_real a nv).snd = [] ∨
     (lookup_name_info_real a nv).snd = [Provider.abstractAPI] ∨
     (lookup_name_info_real a nv).snd = [Provider.numVerify] ∨
     (lookup_name_info_real a nv).snd = [Provider.abstractAPI, Provider.numVerify]) ∧
    (∀ r, a = some (AbstractDict.parsed r) →
      (lookup_name_info_real a nv).fst =
        some { carrier := r.carrier, location := r.location,
               line_type := r.line_type, source := "AbstractAPI" }) := by
  rcases a with _ | (m | r) <;> rcases nv with _ | (m2 | r2) <;>
    simp [lookup_name_info_real]

/-- C1 witness: with AbstractAPI erroring and NumVerify configured, NumVerify
is consulted. -/
theorem c1_sequential_fallback_witness :
    Provider.numVerify ∈ (lookup_name_info_real (some (AbstractDict.err ("boom")))
        (some (NumVerifyDict.parsed nvWithCarrier))).snd :=
  ((c1_sequential_fallback_amended (some (AbstractDict.err ("boom")))
      (some (NumVerifyDict.parsed nvWithCarrier))).2.1).mpr
    ⟨by decide, Or.inr ⟨("boom"), rfl⟩⟩

/-- The AbstractAPI client labels its result as an error exactly when its key
is falsy or the call did not fully succeed. -/
theorem abstract_isErr_eq (akey : String) (anet : HttpOutcome AbstractRaw) :
    (AbstractAPI_lookup_number akey anet).isErr = ((akey == ("")) || !(httpSuccess anet)) := by
  by_cases hk : akey = ""
  · simp [AbstractAPI_lookup_number, hk, AbstractDict.isErr]
  · rcases anet with e | ⟨s, body⟩
    · simp [AbstractAPI_lookup_number, hk, AbstractDict.isErr, httpSuccess]
    · rcases body with e | d <;> by_cases hs : s = 200 <;>
        simp [AbstractAPI_lookup_number, hk, hs, AbstractDict.isErr, httpSuccess]

/-- The NumVerify client labels its result as an error exactly when its key is
falsy or the call did not fully succeed. -/
theorem numverify_isErr_eq (nkey : String) (nnet : HttpOutcome NumVerifyRaw) :
    (NumVerifyAPI_lookup_number nkey nnet).isErr = ((nkey == ("")) || !(httpSuccess nnet)) := by
  by_cases hk : nkey = ""
  · simp [NumVerifyAPI_lookup_number, hk, NumVerifyDict.isErr]
  · rcases nnet with e | ⟨s, body⟩
    · simp [NumVerifyAPI_lookup_number, hk, NumVerifyDict.isErr, httpSuccess]
    · rcases body with e | d <;> by_cases hs : s = 200 <;>
        simp [NumVerifyAPI_lookup_number, hk, hs, NumVerifyDict.isErr, httpSuccess]

/-- C5: both provider clients are total functions of the network outcome (the
embedding of the except-all boundary: every raise inside the try block,
whether transport, authentication, decoding or upstream-rate-limit, is
consumed), and the returned dict carries the error tag exactly when the key is
falsy or the call did not yield a decoded 200 response; hence every failure is
converted into an error-tagged result value and none escapes as an
exception. -/
theorem c5_provider_failures_tagged (akey nkey : String)
    (anet : HttpOutcome AbstractRaw) (nnet : HttpOutcome NumVerifyRaw) :
    (AbstractAPI_lookup_number akey anet).isErr = ((akey == ("")) || !(httpSuccess anet)) ∧
    (NumVerifyAPI_lookup_number nkey nnet).isErr = ((nkey == ("")) || !(httpSuccess nnet)) :=
  ⟨abstract_isErr_eq akey anet, numverify_isErr_eq nkey nnet⟩

/-- C6 counterexample: with the only configured provider erroring, the
aggregated line-type field is the empty string, rendered "Not specified" - it
does not equal the local metadata capability output for the number (the
number-type string, here the Mobile label), so the claim fails for the
lineType field. -/
theorem c6_counterexample :
    (lookup_name_info_real (some (AbstractDict.err ("boom"))) none).fst = none ∧
    real_line_type (lookup_name_info_real (some (AbstractDict.err ("boom"))) none).fst =
      some ("") ∧
    shown_line_type (lookup_name_info_real (some (AbstractDict.err ("boom"))) none).fst =
      "Not specified" ∧
    phone_type_map_enh sampleNum.ptype = "📱 Mobile" ∧
    ("📱 Mobile" : String) ≠ ("") ∧ ("📱 Mobile" : String) ≠ ("Not specified") := by
  refine ⟨rfl, rfl, rfl, rfl, by decide, by decide⟩

/-- C6 amended: when no provider is configured or every configured provider
returned an error, the results dict is empty; the profile carrier and location
fields then equal the library-derived values exactly (with empty library
values already replaced by Unknown), the line-type field falls back to the
empty string (rendered "Not specified"), and the single profile-level source
label is "Basic Library Data". -/
theorem c6_basic_fallback_amended (num : NumObj) (a : Option AbstractDict)
    (nv : Option NumVerifyDict) (ha : absentOrErrA a = true)
    (hn : absentOrErrN nv = true) :
    (lookup_name_info_real a nv).fst = none ∧
    real_carrier num (lookup_name_info_real a nv).fst = some (carrier_name num) ∧
    real_location num (lookup_name_info_real a nv).fst = some (location_str num) ∧
    shown_line_type (lookup_name_info_real a nv).fst = "Not specified" ∧
    data_source (lookup_name_info_real a nv).fst = "Basic Library Data" := by
  have h0 : (lookup_name_info_real a nv).fst = none := by
    rcases a with _ | (m | r) <;> rcases nv with _ | (m2 | r2) <;>
      simp_all [lookup_name_info_real, absentOrErrA, absentOrErrN]
  refine ⟨h0, ?_, ?_, ?_, ?_⟩ <;>
    simp [h0, real_carrier, real_location, shown_line_type, real_line_type, data_source]

/-- C6 witness: with AbstractAPI erroring and NumVerify unconfigured, the
profile carrier falls back to the library value. -/
theorem c6_basic_fallback_witness :
    real_carrier sampleNum
        (lookup_name_info_real (some (AbstractDict.err ("API error: 500"))) none).fst =
      some (carrier_name sampleNum) :=
  (c6_basic_fallback_amended sampleNum (some (AbstractDict.err ("API error: 500")))
    none rfl rfl).2.1

/-- C4 counterexample: with quota 2, inputs holding 3 and 4 candidates produce
byte-identical reply sequences (two profiles and the one fixed omission
notice), although the omitted counts differ (1 versus 2); hence the output
does not report omittedCount = total - quota. -/
theorem c4_counterexample :
    info_cmd_messages [sampleNum, sampleNum, sampleNum] noProv =
      info_cmd_messages [sampleNum, sampleNum, sampleNum, sampleNum] noProv ∧
    ([sampleNum, sampleNum, sampleNum] : List NumObj).length ≠
      ([sampleNum, sampleNum, sampleNum, sampleNum] : List NumObj).length := by
  refine ⟨rfl, by decide⟩

/-- C4 amended: for more than quota (= 2 at this call site) candidates the
handler sends exactly quota profile replies followed by one fixed omission
notice; candidates beyond the quota trigger the notice but their count is not
part of any reply. -/
theorem c4_quota_amended (numbers : List NumObj) (prov : ProvEnv)
    (h : 2 < numbers.length) :
    info_cmd_messages numbers prov =
      (numbers.take 2).map
          (fun n => InfoReply.profile (format_enhanced_number_info n prov)) ++
        [InfoReply.omitNotice omit_notice_msg] := by
  rcases numbers with _ | ⟨a, _ | ⟨b, _ | ⟨c, t⟩⟩⟩
  · simp at h
  · simp at h
  · simp at h
  · rfl

/-- C4 witness: three candidates yield two profiles and the notice. -/
theorem c4_quota_witness :
    2 < ([sampleNum, sampleNum, sampleNum] : List NumObj).length ∧
    info_cmd_messages [sampleNum, sampleNum, sampleNum] noProv =
      (([sampleNum, sampleNum, sampleNum] : List NumObj).take 2).map
          (fun n => InfoReply.profile (format_enhanced_number_info n noProv)) ++
        [InfoReply.omitNotice omit_notice_msg] :=
  ⟨by decide, c4_quota_amended [sampleNum, sampleNum, sampleNum] noProv (by decide)⟩

/-- C7: the basic /info handler attempts the strict parse, the region-assisted
parse and the free-text scan in that fixed order; the chosen number is the
first stage that yields one, a later stage is attempted exactly when every
earlier stage failed, and the attempted stages always form a prefix of the
fixed order. -/
theorem c7_parse_cascade_order (s r c : Option NumObj) :
    (info_cmd_parse_cascade s r c).fst = (s.orElse (fun _ => r.orElse (fun _ => c))) ∧
    ParseStage.strictParse ∈ (info_cmd_parse_cascade s r c).snd ∧
    (ParseStage.regionParse ∈ (info_cmd_parse_cascade s r c).snd ↔ s = none) ∧
    (ParseStage.textScan ∈ (info_cmd_parse_cascade s r c).snd ↔ (s = none ∧ r = none)) ∧
    ((info_cmd_parse_cascade s r c).snd = [ParseStage.strictParse] ∨
     (info_cmd_parse_cascade s r c).snd = [ParseStage.strictParse, ParseStage.regionParse] ∨
     (info_cmd_parse_cascade s r c).snd =
       [ParseStage.strictParse, ParseStage.regionParse, ParseStage.textScan]) := by
  rcases s with _ | ns <;> rcases r with _ | nr <;> rcases c with _ | nc <;>
    simp [info_cmd_parse_cascade]

/-- C8 counterexample: in the enhanced report an empty line-type value renders
as "Not specified", a marker that does not contain the text Unknown, so the
claim that every missing or empty field is rendered with an explicit "Unknown"
marker fails for the Line Type field. -/
theorem c8_counterexample :
    (format_enhanced_parts sampleNum noProv).get? 15 =
      some ("• Line Type: `Not specified`") ∧
    containsSubstr ("• Line Type: `Not specified`") ("Unknown") = false := by
  refine ⟨by decide, by decide⟩

/-- C8 amended: both report formatters emit a fixed set of labelled lines (12
for the basic report, 29 for the enhanced one) independent of the data, and no
field is omitted when its value is missing; values taken from the library
render the "Unknown" marker when missing (region, carrier, location and
timezones, the enhanced report falling back to those library values for
carrier and location exactly when no provider data is present), and an absent
or empty line type renders "Not specified"; but a provider-stored value is
interpolated as-is: a stored None renders the literal text None and a stored
empty string renders an empty value with no marker at all. -/
theorem c8_report_fields_amended (num : NumObj) (prov : ProvEnv)
    (api_data : Option ApiFields) :
    (format_number_info_parts num).length = 12 ∧
    (format_enhanced_parts num prov).length = 29 ∧
    (num.region = "" → region_str num = "Unknown") ∧
    (num.carrierName = "" → carrier_name num = "Unknown") ∧
    (num.location = "" → location_str num = "Unknown") ∧
    (num.tzs = [] → tzs_str num = "Unknown") ∧
    ((real_line_type api_data = some ("") ∨ real_line_type api_data = none) →
      shown_line_type api_data = "Not specified") ∧
    real_carrier num none = some (carrier_name num) ∧
    real_location num none = some (location_str num) ∧
    (∀ f : ApiFields, f.carrier = none → pyStr (real_carrier num (some f)) = "None") ∧
    (∀ f : ApiFields, f.carrier = some ("") → pyStr (real_carrier num (some f)) = ("")) ∧
    (∀ f : ApiFields, f.location = none → pyStr (real_location num (some f)) = "None") ∧
    (∀ f : ApiFields, f.location = some ("") → pyStr (real_location num (some f)) = ("")) := by
  refine ⟨by simp [format_number_info_parts], by simp [format_enhanced_parts],
          ?_, ?_, ?_, ?_, ?_, rfl, rfl, ?_, ?_, ?_, ?_⟩
  · intro h; simp [region_str, h]
  · intro h; simp [carrier_name, h]
  · intro h; simp [location_str, h]
  · intro h; simp [tzs_str, h]
  · rintro (h | h) <;> simp [shown_line_type, h]
  · intro f h; simp [real_carrier, pyStr, h]
  · intro f h; simp [real_carrier, pyStr, h]
  · intro f h; simp [real_location, pyStr, h]
  · intro f h; simp [real_location, pyStr, h]

/-- C8 witness: a number with no region renders the Unknown marker, an empty
provider line type renders Not specified, a provider-stored None carrier
renders the text None, and a provider-stored empty location renders an empty
value. -/
theorem c8_report_fields_witness :
    region_str invalidNum = "Unknown" ∧ shown_line_type none = "Not specified" ∧
    pyStr (real_carrier sampleNum (some apiWithNoneCarrier)) = "None" ∧
    pyStr (real_location sampleNum (some apiWithNoneCarrier)) = ("") := by
  obtain ⟨-, -, h3, -, -, -, h7, -, -, -, -, -, -⟩ :=
    c8_report_fields_amended invalidNum noProv none
  obtain ⟨-, -, -, -, -, -, -, -, -, g10, -, -, g13⟩ :=
    c8_report_fields_amended sampleNum noProv none
  exact ⟨h3 rfl, h7 (Or.inl rfl), g10 apiWithNoneCarrier rfl, g13 apiWithNoneCarrier rfl⟩

/-- The /info loop never emits the no-numbers reply. -/
theorem process_loop_no_noNumbers (quota : Nat) (fmt : NumObj → String) :
    ∀ (l : List NumObj) (i : Nat) (m : String),
      InfoReply.noNumbers m ∉ process_loop quota fmt i l := by
  intro l
  induction l with
  | nil => intro i m; simp [process_loop]
  | cons n rest ih =>
    intro i m
    by_cases h : quota ≤ i
    · simp [process_loop, h]
    · simp only [process_loop, if_neg h, List.mem_cons]
      push_neg
      exact ⟨by simp, ih (i + 1) m⟩

/-- C9: the real-API /info handler reports zero extracted candidates by the
single no-numbers hint reply, with no profile replies, and it emits that reply
exactly when extraction produced no candidate at all; the handler is a total
function of the extracted list, so the condition is not fatal. -/
theorem c9_no_number_reported (events : List MatchEvent) (prov : ProvEnv) :
    (extract_all_numbers_from_text events = [] →
      info_cmd_messages (extract_all_numbers_from_text events) prov =
        [InfoReply.noNumbers no_numbers_msg]) ∧
    ((∃ m, InfoReply.noNumbers m ∈
        info_cmd_messages (extract_all_numbers_from_text events) prov) ↔
      extract_all_numbers_from_text events = []) := by
  generalize extract_all_numbers_from_text events = numbers
  constructor
  · intro h
    simp [info_cmd_messages, h]
  · constructor
    · rintro ⟨m, hm⟩
      by_contra hne
      rw [info_cmd_messages, if_neg (by simpa using hne)] at hm
      exact process_loop_no_noNumbers 2 _ numbers 0 m hm
    · intro h
      exact ⟨no_numbers_msg, by simp [info_cmd_messages, h]⟩

/-- C9 witness: an immediately failing matcher yields zero candidates and the
single hint reply. -/
theorem c9_no_number_reported_witness :
    info_cmd_messages (extract_all_numbers_from_text [MatchEvent.exc ("boom")]) noProv =
      [InfoReply.noNumbers no_numbers_msg] :=
  (c9_no_number_reported [MatchEvent.exc ("boom")] noProv).1 rfl

/-- C10: extract_all_numbers_from_text is a total function of the matcher
event stream - the embedding of the except-all clause - and it returns exactly
the numbers yielded before the first raise: the prefix accumulated so far, and
in particular the empty list when the matcher fails immediately. -/
theorem c10_extract_total (events : List MatchEvent) :
    extract_all_numbers_from_text events =
      (events.takeWhile MatchEvent.isFound).filterMap MatchEvent.foundNumber ∧
    (∀ (e : String) (rest : List MatchEvent),
      extract_all_numbers_from_text (MatchEvent.exc e :: rest) = []) := by
  constructor
  · induction events with
    | nil => rfl
    | cons ev rest ih =>
      cases ev with
      | found n =>
        simp [extract_all_numbers_from_text, List.takeWhile_cons, MatchEvent.isFound,
              MatchEvent.foundNumber, ih]
      | exc e =>
        simp [extract_all_numbers_from_text, List.takeWhile_cons, MatchEvent.isFound]
  · intro e rest
    rfl

end NumberInfoBot
